import Mathlib

/-
Verification of the claims about emsm/core/server.py.

The file shallowly embeds the data model and the operations of the module:
Python strings are Lean strings (operated on through their character
lists), the filesystem state touched by the installation transaction is an
explicit record, exceptions are explicit error values, and every fallible
operation returns its final state together with an optional exception.
-/

-- ------------------------------------------------------------------
-- Python string primitives
-- ------------------------------------------------------------------

/-- Whitespace characters stripped by Python's `str.strip()`. -/
def isPySpace (c : Char) : Bool :=
  c = ' ' || c = '\t' || c = '\n' || c = '\r' || c = '\x0b' || c = '\x0c'

/-- `str.strip()` on a character list: drop whitespace at both ends. -/
def pyStripList (cs : List Char) : List Char :=
  ((cs.dropWhile isPySpace).reverse.dropWhile isPySpace).reverse

/-- Python `str.strip()`. -/
def pyStrip (s : String) : String :=
  String.mk (pyStripList s.data)

/-- Python `s.startswith(p)`. -/
def pyStartsWith (s p : String) : Bool :=
  p.data.isPrefixOf s.data

/-- Python `s[n:]`. -/
def pyDropChars (s : String) (n : Nat) : String :=
  String.mk (s.data.drop n)

/-- Numeric value of a (decimal-digit) character list, as `int()` computes it. -/
def digitsToNat (ds : List Char) : Nat :=
  ds.foldl (fun n c => n * 10 + (c.toNat - 48)) 0

/-- Python `s.split(":")` on a character list (keeps empty fields). -/
def pySplitColon : List Char → List (List Char)
  | [] => [[]]
  | c :: rest =>
    if c = ':' then [] :: pySplitColon rest
    else
      match pySplitColon rest with
      | [] => [[c]]
      | g :: gs => (c :: g) :: gs

-- ------------------------------------------------------------------
-- translate_command (server.py lines 410-411, 599-600, 735-741, 883-884)
-- ------------------------------------------------------------------

/-- `VanillaBase.translate_command`: the identity (line 410-411). -/
def vanilla_translate_command (cmd : String) : String := cmd

/-- `MinecraftForgeBase.translate_command`: the identity (line 599-600). -/
def forge_translate_command (cmd : String) : String := cmd

/-- `Spigot.translate_command`: the identity (line 883-884). -/
def spigot_translate_command (cmd : String) : String := cmd

/-- `BungeeCordServerWrapper.translate_command` (lines 735-741):
strip the command, map `say X` to `alert X`, `stop` to `end`,
pass anything else through stripped. -/
def bungeecord_translate_command (cmd : String) : String :=
  let c := pyStrip cmd
  if pyStartsWith c "say " then "alert " ++ pyDropChars c 4
  else if c = "stop" then "end"
  else c

-- ------------------------------------------------------------------
-- ServerManager registry (server.py lines 922-1030)
-- ------------------------------------------------------------------

/-- The `ServerManager._server` dict: variant name to instantiated wrapper
(instances abstracted to identifiers). `add` refuses duplicate names, so an
insertion-ordered association list is a faithful model of the dict. -/
abbrev Registry := List (String × Nat)

/-- Membership / lookup in the name-to-instance dict
(`server_class.name() in self._server` and `self._server.get(name)`). -/
def registry_lookup : Registry → String → Option Nat
  | [], _ => none
  | (k, v) :: rest, n => if k = n then some v else registry_lookup rest n

/-- Registry exceptions raised by `ServerManager.add`. -/
inductive RegExc where
  | typeError
  | valueError
deriving DecidableEq

/-- `ServerManager.add` (lines 965-986): `TypeError` when the class is not a
`BaseServerWrapper` subclass, `ValueError` when the name is registered
already, otherwise store the new instance under its name. -/
def serverManager_add (reg : Registry) (isSubclassOfBase : Bool)
    (name : String) (inst : Nat) : Except RegExc Registry :=
  if !isSubclassOfBase then Except.error RegExc.typeError
  else if (registry_lookup reg name).isSome then Except.error RegExc.valueError
  else Except.ok (reg ++ [(name, inst)])

/-- `ServerManager.get` (lines 988-993): `dict.get`, `None` when absent. -/
def serverManager_get (reg : Registry) (name : String) : Option Nat :=
  registry_lookup reg name

-- ------------------------------------------------------------------
-- world_address for Vanilla / Spigot (server.py lines 429-452, 886-909)
--
-- The source extracts values with `re.findall` in MULTILINE mode using
--   "^server-port\s*=\s*([\d]{1,5})\s*$"
--   "^server-ip\s*=\s*(\d{1,3}\.\d{1,3}\.\d{1,3}\.\d{1,3})\s*$"
-- The scanner below realises exactly these patterns: `^` is the string
-- start or the position after a newline, `\s` is `isPySpace`, `$` holds at
-- the string end or before a newline.  Because a digit run is ended only
-- by a non-digit, the regex backtracking is deterministic and maximal
-- munch per digit run is an exact implementation.
-- ------------------------------------------------------------------

/-- Consume the literal `lit` from the front of `cs`. -/
def dropLit : List Char → List Char → Option (List Char)
  | [], cs => some cs
  | _ :: _, [] => none
  | l :: ls, c :: cs => if c = l then dropLit ls cs else none

/-- `\s*$` in MULTILINE mode: the whitespace run ahead either reaches the
end of the string or contains a newline. -/
def tailOk (cs : List Char) : Bool :=
  (cs.dropWhile isPySpace).isEmpty || (cs.takeWhile isPySpace).contains '\n'

/-- Match `server-port\s*=\s*([\d]{1,5})\s*$` at the current position,
returning the captured port number. -/
def matchPortAt (cs : List Char) : Option Nat :=
  match dropLit "server-port".data cs with
  | none => none
  | some r0 =>
    match r0.dropWhile isPySpace with
    | '=' :: r2 =>
      let r3 := r2.dropWhile isPySpace
      let ds := r3.takeWhile Char.isDigit
      let r4 := r3.dropWhile Char.isDigit
      if ds.length != 0 && ds.length ≤ 5 && tailOk r4 then
        some (digitsToNat ds)
      else none
    | _ => none

/-- `\d{1,3}` followed by a literal dot. -/
def octetDot (cs : List Char) : Option (List Char × List Char) :=
  let ds := cs.takeWhile Char.isDigit
  let r := cs.dropWhile Char.isDigit
  if ds.length != 0 && ds.length ≤ 3 then
    match r with
    | '.' :: r2 => some (ds, r2)
    | _ => none
  else none

/-- Match `server-ip\s*=\s*(\d{1,3}\.\d{1,3}\.\d{1,3}\.\d{1,3})\s*$` at the
current position, returning the captured dotted quad. -/
def matchIpAt (cs : List Char) : Option String :=
  match dropLit "server-ip".data cs with
  | none => none
  | some r0 =>
    match r0.dropWhile isPySpace with
    | '=' :: r2 =>
      let r3 := r2.dropWhile isPySpace
      match octetDot r3 with
      | none => none
      | some (d1, s1) =>
        match octetDot s1 with
        | none => none
        | some (d2, s2) =>
          match octetDot s2 with
          | none => none
          | some (d3, s3) =>
            let d4 := s3.takeWhile Char.isDigit
            let s4 := s3.dropWhile Char.isDigit
            if d4.length != 0 && d4.length ≤ 3 && tailOk s4 then
              some (String.mk (d1 ++ '.' :: d2 ++ '.' :: d3 ++ '.' :: d4))
            else none
    | _ => none

/-- Try `m` at every position following a newline, left to right. -/
def scanAfterNewlines {α : Type} (m : List Char → Option α) : List Char → Option α
  | [] => none
  | c :: rest =>
    if c = '\n' then
      match m rest with
      | some v => some v
      | none => scanAfterNewlines m rest
    else scanAfterNewlines m rest

/-- First match of the MULTILINE-anchored pattern `m` in the text
(`re.findall(..., re.MULTILINE)` restricted to its first result). -/
def findFirst {α : Type} (m : List Char → Option α) (cs : List Char) : Option α :=
  match m cs with
  | some v => some v
  | none => scanAfterNewlines m cs

/-- `VanillaBase.world_address` (lines 429-452).  The `server.properties`
content is `none` when the file is missing or unreadable (the
`OSError/IOError` branch); otherwise the port is the first
`server-port` match (else `None`) and the ip is the first `server-ip`
match (else `"localhost"`). -/
def vanilla_world_address (conf : Option String) : Option String × Option Nat :=
  match conf with
  | none => (none, none)
  | some c =>
    let port := findFirst matchPortAt c.data
    let ip :=
      match findFirst matchIpAt c.data with
      | some s => some s
      | none => some "localhost"
    (ip, port)

/-- `Spigot.world_address` (lines 886-909), a verbatim duplicate of
`VanillaBase.world_address` in the source. -/
def spigot_world_address (conf : Option String) : Option String × Option Nat :=
  match conf with
  | none => (none, none)
  | some c =>
    let port := findFirst matchPortAt c.data
    let ip :=
      match findFirst matchIpAt c.data with
      | some s => some s
      | none => some "localhost"
    (ip, port)

-- ------------------------------------------------------------------
-- world_address for BungeeCord (server.py lines 752-783)
-- ------------------------------------------------------------------

/-- `re.match("\d{1,3}\.\d{1,3}\.\d{1,3}\.\d{1,3}", ip)`: an unanchored
prefix match of a dotted quad (the pattern has no `$`, so trailing
characters are accepted). -/
def matchQuadPrefix (cs : List Char) : Bool :=
  match octetDot cs with
  | none => false
  | some (_, r1) =>
    match octetDot r1 with
    | none => false
    | some (_, r2) =>
      match octetDot r2 with
      | none => false
      | some (_, r3) => !(r3.takeWhile Char.isDigit).isEmpty

/-- `re.match("^\d{1,5}$", port)`: one to five digits, nothing else. -/
def isPortStr (cs : List Char) : Bool :=
  cs.all Char.isDigit && cs.length != 0 && cs.length ≤ 5

/-- Lines 772-778: strip the ip half, null it unless the dotted-quad
prefix pattern matches, then map `0.0.0.0` to `localhost`. -/
def bc_check_ip (cs : List Char) : Option String :=
  let s := pyStripList cs
  let ip0 := if matchQuadPrefix s then some (String.mk s) else none
  if ip0 = some "0.0.0.0" then some "localhost" else ip0

/-- Lines 780-782: strip the port half and convert it to an integer when
it is one to five digits, else null. -/
def bc_check_port (cs : List Char) : Option Nat :=
  let s := pyStripList cs
  if isPortStr s then some (digitsToNat s) else none

/-- `BungeeCordServerWrapper.world_address` (lines 752-783).  The input is
the first listener's host string `conf["listeners"][0]["host"]`, or `none`
when the file is unreadable or any lookup in the parsed document fails
(both paths yield `(None, None)` in the source).  The host is split with
`adr.split(":")`; the tuple unpacking `ip, port = ...` succeeds only when
the split yields exactly two parts, and the resulting exception from any
other shape is caught and mapped to `(None, None)`. -/
def bungeecord_world_address (host : Option String) : Option String × Option Nat :=
  match host with
  | none => (none, none)
  | some adr =>
    match pySplitColon adr.data with
    | [ipPart, portPart] => (bc_check_ip ipPart, bc_check_port portPart)
    | _ => (none, none)

/-- Modelled from the spec: the BungeeCord address resolution as §4.3
words it, with the host string "split into IP and port on the last
colon" and the halves validated as in the source.  This definition exists
only to be compared with `bungeecord_world_address`, the embedding of the
code. -/
def bungeecord_world_address_onLastColon (host : Option String) :
    Option String × Option Nat :=
  match host with
  | none => (none, none)
  | some adr =>
    let afterRev := adr.data.reverse.takeWhile (fun c => !(c = ':'))
    match adr.data.reverse.dropWhile (fun c => !(c = ':')) with
    | ':' :: ipRev => (bc_check_ip ipRev.reverse, bc_check_port afterRev.reverse)
    | _ => (none, none)

-- ------------------------------------------------------------------
-- The installation transaction (server.py lines 239-308)
-- ------------------------------------------------------------------

/-- What occupies a filesystem location: a single file or a directory,
with the contents abstracted to an identifier. -/
inductive Artifact where
  | file (id : Nat)
  | dir (id : Nat)
deriving DecidableEq

/-- The exceptions that can escape the transaction code. -/
inductive RExc where
  | serverIsOnline
  | installationFailure
  | typeError
  | fileNotFound
deriving DecidableEq

/-- The filesystem as the reinstall transaction sees it: the install path
`self._server` and the backup moved into the `TemporaryDirectory`
(`none` once that directory is gone). -/
structure FS where
  installPath : Option Artifact
  tmpBackup : Option Artifact
deriving DecidableEq

/-- A world collaborator as `is_online` consults it: whether
`w.server() is self` holds and what `w.is_online()` reports. -/
structure WorldView where
  serverMatches : Bool
  isOnline : Bool
deriving DecidableEq

/-- `BaseServerWrapper.is_online` (lines 246-254): true iff the predicate
`w.server() is self and w.is_online()` filters a non-empty world list. -/
def is_online (worlds : List WorldView) : Bool :=
  !(worlds.filter (fun w => w.serverMatches && w.isOnline)).isEmpty

/-- `BaseServerWrapper.reinstall` (lines 271-308), parameterised over the
variant's `install`, a function from the content of the install path to
the new content and an optional exception.

The embedded control flow follows the source exactly:
* online check first, raising `ServerIsOnlineError` before any
  filesystem operation;
* `shutil.move(self._server, tmp_dir)` raises `FileNotFoundError` when
  nothing is installed, and the `with` block removes the temporary
  directory on that exit path;
* after the move the install path is empty, so the
  `assert not self.is_installed()` on line 291 always passes;
* when `install()` raises, the handler's first statement is
  `if os.path.exists():` — `os.path.exists` called with NO argument —
  which raises `TypeError` immediately: the cleanup and the restoring
  `shutil.move(tmp_server_path, self._server)` are never executed, the
  `with` block deletes the temporary directory together with the backup
  inside it, and the `TypeError` (not the original failure) propagates;
* on success the `with` block discards the backup and `None` is
  returned. -/
def reinstall (installFn : Option Artifact → Option Artifact × Option RExc)
    (worlds : List WorldView) (fs : FS) : FS × Option RExc :=
  if is_online worlds then (fs, some RExc.serverIsOnline)
  else
    match fs.installPath with
    | none => (fs, some RExc.fileNotFound)
    | some _old =>
      match installFn none with
      | (newPath, none) =>
        ({ installPath := newPath, tmpBackup := none }, none)
      | (leftover, some _) =>
        ({ installPath := leftover, tmpBackup := none }, some RExc.typeError)

-- ------------------------------------------------------------------
-- MinecraftForgeBase.install (server.py lines 602-654)
-- ------------------------------------------------------------------

/-- The process-wide working directory, as far as the claims observe it. -/
inductive Cwd where
  | original
  | installDir
deriving DecidableEq

/-- State touched by the Forge installer: the install path and the
current working directory of the process. -/
structure ForgeFS where
  installPath : Option Artifact
  cwd : Cwd
deriving DecidableEq

/-- Environment of one Forge installation run: whether
`urllib.request.urlretrieve` succeeds, whether the
`os.path.samefile(self.server(), os.curdir)` check passes after the
`chdir`, the installer subprocess return code, and the identifier of the
directory contents the installer produces. -/
structure ForgeEnv where
  downloadOk : Bool
  samefileOk : Bool
  installerReturncode : Nat
  builtId : Nat
deriving DecidableEq

/-- `MinecraftForgeBase.install` (lines 602-654).  The whole body after
the `is_installed` early return sits in `try: ... except: <remove dir>`
with **no re-raise**, so every internal failure is swallowed and the
method falls through to `return None`:
* download failure raises `ServerInstallationFailure(err)`, caught by the
  outer bare `except`; the install directory does not exist yet, so only
  the `return None` happens;
* otherwise the install directory is created and `os.chdir` moves the
  process there — the working directory is never changed back on any
  later path;
* a failing `samefile` check or a non-zero installer return code raises
  `ServerInstallationFailure`, which the outer `except` turns into
  `shutil.rmtree(self.server())` followed by `return None`;
* on success the populated directory stays and `None` is returned. -/
def forge_install (env : ForgeEnv) (fs : ForgeFS) : ForgeFS × Option RExc :=
  if fs.installPath.isSome then (fs, none)
  else if !env.downloadOk then (fs, none)
  else if !env.samefileOk then
    ({ installPath := none, cwd := Cwd.installDir }, none)
  else if env.installerReturncode != 0 then
    ({ installPath := none, cwd := Cwd.installDir }, none)
  else
    ({ installPath := some (Artifact.dir env.builtId), cwd := Cwd.installDir }, none)

-- ------------------------------------------------------------------
-- VanillaBase.install / BungeeCordServerWrapper.install
-- (server.py lines 413-427 and 716-730)
-- ------------------------------------------------------------------

/-- One argument slot of a `ServerInstallationFailure(server, msg=None)`
construction: either a reference to the wrapper itself (`self`) or some
other object, such as the caught error. -/
inductive SIFSlot where
  | variantRef (name : String)
  | errObj (id : Nat)
deriving DecidableEq

/-- Exceptions escaping the direct-download installers: a
`ServerInstallationFailure` with the objects actually passed to its
constructor, or an uncaught `OSError` from the filesystem move. -/
inductive DlExc where
  | serverInstallationFailure (server : SIFSlot) (msg : Option SIFSlot)
  | osError (id : Nat)
deriving DecidableEq

/-- Environment of one direct-download installation run: whether
`urlretrieve` raises (and which error object), whether `shutil.move`
raises, and the identifier of the downloaded temporary file. -/
structure DlEnv where
  downloadErr : Option Nat
  moveErr : Option Nat
  downloadedId : Nat
deriving DecidableEq

/-- `VanillaBase.install` (lines 413-427): a download failure is wrapped
as `ServerInstallationFailure(self, err)`; the `shutil.move` in the
`else` branch is not wrapped, so a filesystem error there propagates as a
raw `OSError`. -/
def vanilla_install (name : String) (env : DlEnv) (installPath : Option Artifact) :
    Option Artifact × Option DlExc :=
  if installPath.isSome then (installPath, none)
  else
    match env.downloadErr with
    | some e =>
      (installPath,
       some (DlExc.serverInstallationFailure (SIFSlot.variantRef name)
               (some (SIFSlot.errObj e))))
    | none =>
      match env.moveErr with
      | some e => (installPath, some (DlExc.osError e))
      | none => (some (Artifact.file env.downloadedId), none)

/-- `BungeeCordServerWrapper.install` (lines 716-730): same shape as
`VanillaBase.install`, but line 727 raises
`ServerInstallationFailure(err)` with a single argument, so the caught
error lands in the `server` slot and the `msg` slot stays `None`. -/
def bungeecord_install (env : DlEnv) (installPath : Option Artifact) :
    Option Artifact × Option DlExc :=
  if installPath.isSome then (installPath, none)
  else
    match env.downloadErr with
    | some e =>
      (installPath,
       some (DlExc.serverInstallationFailure (SIFSlot.errObj e) none))
    | none =>
      match env.moveErr with
      | some e => (installPath, some (DlExc.osError e))
      | none => (some (Artifact.file env.downloadedId), none)

-- ------------------------------------------------------------------
-- MCServer and the abstract capability methods (server.py lines 333-350,
-- 915-916)
-- ------------------------------------------------------------------

/-- Exceptions observable from a capability call on the placeholder. -/
inductive PyExc where
  | notImplementedError
deriving DecidableEq

/-- A Python value returned by a capability call: a string, or an
exception object used as an ordinary value. -/
inductive PyVal where
  | vStr (s : String)
  | vExcObj (e : PyExc)
deriving DecidableEq

/-- `BaseServerWrapper.translate_command` (lines 333-350): the body is
`return NotImplementedError()` — it RETURNS the freshly constructed
exception object instead of raising it. -/
def base_translate_command (_cmd : String) : Except PyExc PyVal :=
  Except.ok (PyVal.vExcObj PyExc.notImplementedError)

/-- `BaseServerWrapper.install` (lines 256-269): `raise NotImplementedError()`. -/
def base_install : Except PyExc PyVal :=
  Except.error PyExc.notImplementedError

/-- `BaseServerWrapper.default_url` (lines 222-228): `raise NotImplementedError()`. -/
def base_default_url : Except PyExc PyVal :=
  Except.error PyExc.notImplementedError

/-- `BaseServerWrapper.default_start_cmd` (lines 310-319): `raise NotImplementedError()`. -/
def base_default_start_cmd : Except PyExc PyVal :=
  Except.error PyExc.notImplementedError

/-- `MCServer` (lines 915-916) is `class MCServer(BaseServerWrapper): pass`,
so every capability is inherited unchanged from the base class. -/
def mcserver_translate_command (cmd : String) : Except PyExc PyVal :=
  base_translate_command cmd

/-- `MCServer.install`, inherited from `BaseServerWrapper`. -/
def mcserver_install : Except PyExc PyVal :=
  base_install

/-- `MCServer.default_url`, inherited from `BaseServerWrapper`. -/
def mcserver_default_url : Except PyExc PyVal :=
  base_default_url

/-- `MCServer.default_start_cmd`, inherited from `BaseServerWrapper`. -/
def mcserver_default_start_cmd : Except PyExc PyVal :=
  base_default_start_cmd

-- ------------------------------------------------------------------
-- Helper lemmas
-- ------------------------------------------------------------------

theorem pySplitColon_ne_nil : ∀ cs : List Char, pySplitColon cs ≠ []
  | [] => by simp [pySplitColon]
  | c :: rest => by
    unfold pySplitColon
    by_cases hc : c = ':'
    · simp [hc]
    · simp only [hc, if_false]
      cases pySplitColon rest <;> simp

theorem pySplitColon_length (cs : List Char) :
    (pySplitColon cs).length = cs.count ':' + 1 := by
  induction cs with
  | nil => simp [pySplitColon]
  | cons c rest ih =>
    by_cases hc : c = ':'
    · subst hc
      simp [pySplitColon, List.count_cons, ih]
    · cases hrec : pySplitColon rest with
      | nil => exact absurd hrec (pySplitColon_ne_nil rest)
      | cons g gs =>
        rw [hrec] at ih
        unfold pySplitColon
        simp only [hc, if_false, hrec]
        simp only [List.length_cons] at ih ⊢
        rw [List.count_cons]
        simp [hc, ih, Ne.symm hc]

theorem pySplitColon_of_no_colon (cs : List Char) (h : ':' ∉ cs) :
    pySplitColon cs = [cs] := by
  induction cs with
  | nil => rfl
  | cons c rest ih =>
    have hc : ¬ c = ':' := fun he => h (he ▸ List.mem_cons_self c rest)
    have hrest : ':' ∉ rest := fun hm => h (List.mem_cons_of_mem _ hm)
    unfold pySplitColon
    simp only [hc, if_false, ih hrest]

theorem pySplitColon_append (a b : List Char) (ha : ':' ∉ a) :
    pySplitColon (a ++ ':' :: b) = a :: pySplitColon b := by
  induction a with
  | nil => simp [pySplitColon]
  | cons c a2 ih =>
    have hc : ¬ c = ':' := fun he => ha (he ▸ List.mem_cons_self c a2)
    have ha2 : ':' ∉ a2 := fun hm => ha (List.mem_cons_of_mem _ hm)
    rw [List.cons_append]
    unfold pySplitColon
    simp only [hc, if_false, ih ha2]
    rw [pySplitColon.eq_def]

theorem isPrefixOf_self_append (p r : List Char) : p.isPrefixOf (p ++ r) = true := by
  induction p with
  | nil => simp [List.isPrefixOf]
  | cons c cs ih => simp [List.isPrefixOf, ih]

theorem registry_lookup_eq_none_iff (reg : Registry) (n : String) :
    registry_lookup reg n = none ↔ ∀ p ∈ reg, p.1 ≠ n := by
  induction reg with
  | nil => simp [registry_lookup]
  | cons hd tl ih =>
    obtain ⟨k, v⟩ := hd
    by_cases hk : k = n
    · subst hk
      simp [registry_lookup]
    · simp [registry_lookup, hk, ih]

-- ------------------------------------------------------------------
-- Claim theorems
-- ------------------------------------------------------------------

/-- An `install()` that raises, leaving the (empty) install path as it
found it — e.g. `VanillaBase.install` with a failing download. -/
def c1_failing_install : Option Artifact → Option Artifact × Option RExc :=
  fun cur => (cur, some RExc.installationFailure)

/-- An `install()` that succeeds and puts a new file at the install path. -/
def c1_ok_install : Option Artifact → Option Artifact × Option RExc :=
  fun _ => (some (Artifact.file 9), none)

/-- C1.  The code violates the rollback guarantee: when `install()` raises
during `reinstall()` on an installed variant with no online world, the
handler's no-argument `os.path.exists()` call raises `TypeError`, the
backup is never moved back, the `TemporaryDirectory` cleanup deletes it,
and `reinstall` propagates `TypeError` with the install path left empty —
the prior installation is destroyed, not restored.  (The success path,
second conjunct, does leave exactly the new installation.) -/
theorem reinstall_failure_destroys_backup :
    reinstall c1_failing_install []
        { installPath := some (Artifact.file 7), tmpBackup := none } =
      ({ installPath := none, tmpBackup := none }, some RExc.typeError) ∧
    reinstall c1_ok_install []
        { installPath := some (Artifact.file 7), tmpBackup := none } =
      ({ installPath := some (Artifact.file 9), tmpBackup := none }, none) :=
  ⟨rfl, rfl⟩

/-- C2.  `MinecraftForgeBase.install` never signals a failure: its outer
bare `except` removes the partial install directory and falls through to
`return None`, so the method reports success on every environment — in
particular (second conjunct) when the installer download fails and
(third conjunct) when the installer subprocess exits non-zero, where it
returns `None` with nothing installed. -/
theorem forge_install_swallows_failures :
    (∀ (env : ForgeEnv) (fs : ForgeFS), (forge_install env fs).2 = none) ∧
    forge_install
        { downloadOk := false, samefileOk := true, installerReturncode := 0, builtId := 0 }
        { installPath := none, cwd := Cwd.original } =
      ({ installPath := none, cwd := Cwd.original }, none) ∧
    forge_install
        { downloadOk := true, samefileOk := true, installerReturncode := 1, builtId := 0 }
        { installPath := none, cwd := Cwd.original } =
      ({ installPath := none, cwd := Cwd.installDir }, none) := by
  refine ⟨?_, rfl, rfl⟩
  intro env fs
  unfold forge_install
  split
  · rfl
  · split
    · rfl
    · split
      · rfl
      · split
        · rfl
        · rfl

/-- C3.  When some world references the variant (`w.server() is self`)
and reports itself online, `reinstall` raises `ServerIsOnlineError`
before any filesystem operation, leaving the state untouched. -/
theorem reinstall_online_guard
    (installFn : Option Artifact → Option Artifact × Option RExc)
    (worlds : List WorldView) (fs : FS)
    (h : ∃ w ∈ worlds, w.serverMatches = true ∧ w.isOnline = true) :
    reinstall installFn worlds fs = (fs, some RExc.serverIsOnline) := by
  obtain ⟨w, hw, h1, h2⟩ := h
  have hmem : w ∈ worlds.filter (fun w => w.serverMatches && w.isOnline) :=
    List.mem_filter.mpr ⟨hw, by simp [h1, h2]⟩
  have hne : worlds.filter (fun w => w.serverMatches && w.isOnline) ≠ [] :=
    List.ne_nil_of_mem hmem
  have honline : is_online worlds = true := by
    unfold is_online
    cases hfilter : worlds.filter (fun w => w.serverMatches && w.isOnline) with
    | nil => exact absurd hfilter hne
    | cons a l => rfl
  unfold reinstall
  rw [honline]
  simp

/-- Witness for C3 at a concrete online world and installed variant. -/
theorem reinstall_online_guard_witness :
    reinstall (fun cur => (cur, none)) [{ serverMatches := true, isOnline := true }]
        { installPath := some (Artifact.file 1), tmpBackup := none } =
      ({ installPath := some (Artifact.file 1), tmpBackup := none },
        some RExc.serverIsOnline) :=
  reinstall_online_guard _ _ _
    ⟨{ serverMatches := true, isOnline := true }, by simp, rfl, rfl⟩

/-- C10.  Whenever `MinecraftForgeBase.install` gets past the download on
a not-yet-installed variant it executes `os.chdir(self.server())`, and no
exit path — samefile-check failure, non-zero installer exit, or success —
changes the working directory back: the process ends up in the install
directory as a side effect. -/
theorem forge_install_changes_cwd (env : ForgeEnv) (fs : ForgeFS)
    (hni : fs.installPath = none) (hdl : env.downloadOk = true) :
    (forge_install env fs).1.cwd = Cwd.installDir := by
  unfold forge_install
  rw [hni, hdl]
  simp only [Option.isSome_none, Bool.false_eq_true, if_false, Bool.not_true,
    Bool.false_eq_true, if_false]
  split
  · rfl
  · split
    · rfl
    · rfl

/-- Witness for C10: a failing samefile check still leaves the process in
the install directory. -/
theorem forge_install_changes_cwd_witness :
    (forge_install
        { downloadOk := true, samefileOk := false, installerReturncode := 0, builtId := 0 }
        { installPath := none, cwd := Cwd.original }).1.cwd = Cwd.installDir :=
  forge_install_changes_cwd _ _ rfl rfl

/-- C4, counterexample.  On the host string `1.2.3.4:56:789` (more than
one colon) the code yields `(None, None)` because the two-way tuple
unpacking of `adr.split(":")` fails, while splitting on the last colon as
the claim states would yield port `789`. -/
theorem bungeecord_world_address_not_lastColon :
    bungeecord_world_address (some "1.2.3.4:56:789") ≠
      bungeecord_world_address_onLastColon (some "1.2.3.4:56:789") := by
  decide

/-- C4, amended.  `BungeeCordServerWrapper.world_address` splits the
host string on every colon: a missing host yields `(None, None)`; a host
whose colon count is not exactly one yields `(None, None)`; and a host of
the form `a:b` (one colon) yields the ip half validated against the
dotted-quad pattern with `0.0.0.0` mapped to `localhost` and the port
half validated as one to five digits. -/
theorem bungeecord_world_address_split_behavior :
    bungeecord_world_address none = (none, none) ∧
    (∀ adr : String, adr.data.count ':' ≠ 1 →
        bungeecord_world_address (some adr) = (none, none)) ∧
    (∀ a b : List Char, ':' ∉ a → ':' ∉ b →
        bungeecord_world_address (some (String.mk (a ++ ':' :: b))) =
          (bc_check_ip a, bc_check_port b)) := by
  refine ⟨rfl, ?_, ?_⟩
  · intro adr hcount
    have hlen := pySplitColon_length adr.data
    show (match pySplitColon adr.data with
          | [ipPart, portPart] => (bc_check_ip ipPart, bc_check_port portPart)
          | _ => (none, none)) = (none, none)
    cases hps : pySplitColon adr.data with
    | nil => exact absurd hps (pySplitColon_ne_nil _)
    | cons x xs =>
      cases xs with
      | nil => rfl
      | cons y ys =>
        cases ys with
        | nil =>
          rw [hps] at hlen
          simp only [List.length_cons, List.length_nil] at hlen
          omega
        | cons z zs => rfl
  · intro a b ha hb
    unfold bungeecord_world_address
    show (match pySplitColon (a ++ ':' :: b) with
          | [ipPart, portPart] => (bc_check_ip ipPart, bc_check_port portPart)
          | _ => (none, none)) = (bc_check_ip a, bc_check_port b)
    rw [pySplitColon_append a b ha, pySplitColon_of_no_colon b hb]

/-- Witness for C4's amended theorem at the host `192.168.1.5:25565`. -/
theorem bungeecord_world_address_split_behavior_witness :
    bungeecord_world_address (some (String.mk ("192.168.1.5".data ++ ':' :: "25565".data))) =
      (bc_check_ip "192.168.1.5".data, bc_check_port "25565".data) :=
  bungeecord_world_address_split_behavior.2.2 "192.168.1.5".data "25565".data
    (by decide) (by decide)

/-- C5.  The Vanilla and Spigot resolvers: the round trip on a
`server.properties` with `server-port=25565` and `server-ip=192.168.1.5`;
`localhost` as the ip of any readable file without a valid `server-ip`
line; `(None, None)` on a missing or unreadable file.  (Both resolvers
are total Lean functions, the embedding of the source's
never-raise behavior.) -/
theorem world_address_resolution :
    vanilla_world_address (some "server-port=25565\nserver-ip=192.168.1.5") =
      (some "192.168.1.5", some 25565) ∧
    spigot_world_address (some "server-port=25565\nserver-ip=192.168.1.5") =
      (some "192.168.1.5", some 25565) ∧
    (∀ conf : String, findFirst matchIpAt conf.data = none →
        (vanilla_world_address (some conf)).1 = some "localhost") ∧
    (∀ conf : String, findFirst matchIpAt conf.data = none →
        (spigot_world_address (some conf)).1 = some "localhost") ∧
    vanilla_world_address none = (none, none) ∧
    spigot_world_address none = (none, none) := by
  refine ⟨by decide, by decide, ?_, ?_, rfl, rfl⟩
  · intro conf hip
    simp only [vanilla_world_address]
    rw [hip]
  · intro conf hip
    simp only [spigot_world_address]
    rw [hip]

/-- Witness for C5 on a file holding only a port line. -/
theorem world_address_resolution_witness :
    (vanilla_world_address (some "server-port=1")).1 = some "localhost" :=
  world_address_resolution.2.2.1 "server-port=1" (by decide)

/-- C6.  The direct-download installers do not keep the claimed exception
contract: BungeeCord's download failure raises
`ServerInstallationFailure(err)` with the cause in the `server` slot and
no variant at all (first conjunct; compare Vanilla's correct
`ServerInstallationFailure(self, err)` in the second), and a filesystem
error during the move propagates as a raw `OSError` rather than a
`ServerInstallationFailure` (third conjunct).  In each failure the
install path stays empty. -/
theorem dl_install_failure_payloads :
    bungeecord_install { downloadErr := some 3, moveErr := none, downloadedId := 0 } none =
      (none, some (DlExc.serverInstallationFailure (SIFSlot.errObj 3) none)) ∧
    vanilla_install "vanilla 1.8"
        { downloadErr := some 3, moveErr := none, downloadedId := 0 } none =
      (none, some (DlExc.serverInstallationFailure (SIFSlot.variantRef "vanilla 1.8")
        (some (SIFSlot.errObj 3)))) ∧
    vanilla_install "vanilla 1.8"
        { downloadErr := none, moveErr := some 4, downloadedId := 0 } none =
      (none, some (DlExc.osError 4)) :=
  ⟨rfl, rfl, rfl⟩

/-- C7.  The command translation table: BungeeCord maps a stripped
`say X` to `alert X` and a stripped `stop` to `end` and strips everything
else, while Vanilla, Spigot and Forge translate every command to
itself. -/
theorem translate_command_table :
    (∀ cmd rest : String, pyStrip cmd = "say " ++ rest →
        bungeecord_translate_command cmd = "alert " ++ rest) ∧
    (∀ cmd : String, pyStrip cmd = "stop" →
        bungeecord_translate_command cmd = "end") ∧
    (∀ cmd : String, pyStartsWith (pyStrip cmd) "say " = false →
        pyStrip cmd ≠ "stop" →
        bungeecord_translate_command cmd = pyStrip cmd) ∧
    (∀ cmd : String, vanilla_translate_command cmd = cmd) ∧
    (∀ cmd : String, spigot_translate_command cmd = cmd) ∧
    (∀ cmd : String, forge_translate_command cmd = cmd) := by
  refine ⟨?_, ?_, ?_, fun _ => rfl, fun _ => rfl, fun _ => rfl⟩
  · intro cmd rest h
    obtain ⟨l⟩ := rest
    have hpre : pyStartsWith ("say " ++ String.mk l) "say " = true := by
      unfold pyStartsWith
      show "say ".data.isPrefixOf ("say ".data ++ l) = true
      exact isPrefixOf_self_append _ _
    have hdrop : pyDropChars ("say " ++ String.mk l) 4 = String.mk l := by
      unfold pyDropChars
      show String.mk (("say ".data ++ l).drop 4) = String.mk l
      rw [List.drop_left' (by rfl)]
    simp only [bungeecord_translate_command]
    rw [h, hpre, if_pos rfl, hdrop]
  · intro cmd h
    simp only [bungeecord_translate_command]
    rw [h]
    decide
  · intro cmd h1 h2
    simp only [bungeecord_translate_command]
    rw [h1]
    simp [h2]

/-- Witness for C7 on concrete BungeeCord commands. -/
theorem translate_command_table_witness :
    bungeecord_translate_command "  say hello " = "alert hello" ∧
    bungeecord_translate_command " stop " = "end" ∧
    bungeecord_translate_command "list" = pyStrip "list" :=
  ⟨translate_command_table.1 "  say hello " "hello" (by decide),
   translate_command_table.2.1 " stop " (by decide),
   translate_command_table.2.2.1 "list" (by decide) (by decide)⟩

/-- C8.  The registry: adding a name that is already present fails with
`ValueError` (the model of `DuplicateName`); a successful `add` appends
exactly one entry and preserves the no-duplicate-names invariant; `get`
is total and returns `None` on an absent name. -/
theorem serverManager_uniqueness :
    (∀ (reg : Registry) (name : String) (inst : Nat),
        (registry_lookup reg name).isSome = true →
        serverManager_add reg true name inst = Except.error RegExc.valueError) ∧
    (∀ (reg : Registry) (isSub : Bool) (name : String) (inst : Nat) (reg2 : Registry),
        serverManager_add reg isSub name inst = Except.ok reg2 →
        reg2 = reg ++ [(name, inst)] ∧ reg2.length = reg.length + 1 ∧
          ((reg.map Prod.fst).Nodup → (reg2.map Prod.fst).Nodup)) ∧
    (∀ (reg : Registry) (name : String), (∀ p ∈ reg, p.1 ≠ name) →
        serverManager_get reg name = none) := by
  refine ⟨?_, ?_, ?_⟩
  · intro reg name inst hsome
    simp [serverManager_add, hsome]
  · intro reg isSub name inst reg2 hok
    cases isSub with
    | false => simp [serverManager_add] at hok
    | true =>
      by_cases hlk : (registry_lookup reg name).isSome = true
      · simp [serverManager_add, hlk] at hok
      · have hnone : registry_lookup reg name = none := by
          cases hcase : registry_lookup reg name with
          | none => rfl
          | some v => rw [hcase] at hlk; simp at hlk
        have hreg : reg2 = reg ++ [(name, inst)] := by
          simp only [serverManager_add, Bool.not_true, Bool.false_eq_true, if_false,
            hlk, Except.ok.injEq] at hok
          exact hok.symm
        refine ⟨hreg, ?_, ?_⟩
        · rw [hreg]
          simp
        · intro hnd
          rw [hreg, List.map_append]
          show ((reg.map Prod.fst) ++ [name]).Nodup
          have hnotmem : name ∉ reg.map Prod.fst := by
            intro hmem
            obtain ⟨p, hp, hfst⟩ := List.mem_map.mp hmem
            exact (registry_lookup_eq_none_iff reg name).mp hnone p hp hfst
          exact hnd.append (List.nodup_singleton _)
            (List.disjoint_singleton.mpr hnotmem)
  · intro reg name hall
    unfold serverManager_get
    exact (registry_lookup_eq_none_iff reg name).mpr hall

/-- Witness for C8: re-registering `vanilla 1.8` fails, a fresh name
succeeds, a missing name resolves to `None`. -/
theorem serverManager_uniqueness_witness :
    serverManager_add [("vanilla 1.8", 0)] true "vanilla 1.8" 1 =
      Except.error RegExc.valueError ∧
    serverManager_get [("vanilla 1.8", 0)] "spigot latest" = none :=
  ⟨serverManager_uniqueness.1 [("vanilla 1.8", 0)] "vanilla 1.8" 1 (by decide),
   serverManager_uniqueness.2.2 [("vanilla 1.8", 0)] "spigot latest" (by decide)⟩

/-- C9.  On the placeholder `MCServer` the inherited capability methods
`install`, `default_url`, `default_start_cmd` raise `NotImplementedError`,
but `translate_command` executes `return NotImplementedError()` — it
returns the exception object as a value and never raises. -/
theorem mcserver_translate_command_returns_value :
    mcserver_translate_command "stop" =
      Except.ok (PyVal.vExcObj PyExc.notImplementedError) ∧
    (∀ (cmd : String) (e : PyExc), mcserver_translate_command cmd ≠ Except.error e) ∧
    mcserver_install = Except.error PyExc.notImplementedError ∧
    mcserver_default_url = Except.error PyExc.notImplementedError ∧
    mcserver_default_start_cmd = Except.error PyExc.notImplementedError := by
  refine ⟨rfl, ?_, rfl, rfl, rfl⟩
  intro cmd e h
  exact Except.noConfusion h
